import Mathlib

/-!
Shallow embedding of the SportSee data pipeline (normalizer, chart
transformers, mock fetch gateway) and proofs about it.

JavaScript numbers are modelled as rationals (`ℚ`); `NaN` is modelled
explicitly where it can arise (day-of-month extraction).  A possibly
absent (`undefined`/`null`) field is an `Option`.  `??` (nullish
coalescing) is `Option.getD`; `||` keeps the left operand when it is
truthy (for numbers: non-zero).
-/

namespace SportSee

/-- Primitive JavaScript value that can sit in a dynamically typed payload
field read by this pipeline: a number or a string. -/
inductive JsPrim where
  | num (q : ℚ)
  | str (s : String)
  deriving DecidableEq

/-- Truthiness of a primitive JavaScript value: a number is truthy iff it
is non-zero, a string iff it is non-empty. -/
def JsPrim.truthy : JsPrim → Bool
  | .num q => q != 0
  | .str s => s != ""

/-- Result of a JavaScript numeric computation that can produce `NaN`
(here: `Date.prototype.getDate` on an invalid date). -/
inductive JsIntNan where
  | int (n : ℤ)
  | nan
  deriving DecidableEq

/-- Embedding of `a || b` for a possibly-undefined numeric field `a`:
the left operand is kept when it is truthy (non-zero), otherwise `b`. -/
def jsOrNum (a : Option ℚ) (b : ℚ) : ℚ :=
  match a with
  | some q => if q = 0 then b else q
  | none => b

/-- Decides whether `pat` occurs at the start of `text` (character lists). -/
def charsStartWith : List Char → List Char → Bool
  | [], _ => true
  | _ :: _, [] => false
  | p :: ps, t :: ts => p == t && charsStartWith ps ts

/-- Decides whether `pat` occurs anywhere inside `text`; embeds
JavaScript's `String.prototype.includes`. -/
def charsContain (text pat : List Char) : Bool :=
  match text with
  | [] => charsStartWith pat []
  | _ :: rest => charsStartWith pat text || charsContain rest pat

/-- Embedding of `endpoint.includes(pat)`. -/
def jsIncludes (s pat : String) : Bool :=
  charsContain s.data pat.data

/-- Embedding of the test `endpoint.match(/\/user\/\d+$/)`: the string
ends in a non-empty run of digits immediately preceded by `/user/`. -/
def matchesUserIdPath (s : String) : Bool :=
  let rcs := s.data.reverse
  let ds := rcs.takeWhile Char.isDigit
  ds != [] && charsStartWith "/user/".data.reverse (rcs.drop ds.length)

/-- Numeric value of a list of decimal digit characters. -/
def digitsVal (cs : List Char) : ℕ :=
  cs.foldl (fun n c => 10 * n + (c.toNat - 48)) 0

/-- Embedding of JavaScript `ToNumber` on a string, restricted to plain
decimal literals (optional sign, digits, optional fraction); the empty
string converts to 0 and anything else to `NaN` (`none`).  Exponent,
hexadecimal and whitespace forms do not occur in this codebase. -/
def jsStringToNumber (s : String) : Option ℚ :=
  match s.data with
  | [] => some 0
  | cs =>
    let sign : ℚ × List Char :=
      match cs with
      | '-' :: r => (-1, r)
      | '+' :: r => (1, r)
      | r => (1, r)
    let ip := sign.2.takeWhile Char.isDigit
    let rest := sign.2.dropWhile Char.isDigit
    match rest with
    | [] => if ip.isEmpty then none else some (sign.1 * digitsVal ip)
    | '.' :: fr =>
      if fr.all Char.isDigit && !(ip.isEmpty && fr.isEmpty) then
        some (sign.1 * ((digitsVal ip : ℚ) + (digitsVal fr : ℚ) / 10 ^ fr.length))
      else none
    | _ => none

/-- Embedding of JavaScript `ToNumber` on a possibly-undefined payload
value; `none` is `NaN` (in particular `undefined` converts to `NaN`). -/
def jsNumberOfPrim : Option JsPrim → Option ℚ
  | none => none
  | some (.num q) => some q
  | some (.str s) => jsStringToNumber s

/-- Embedding of a JavaScript array read `l[i]` with a possibly-`NaN`
rational index: defined only for an integral in-range index, `undefined`
(`none`) otherwise. -/
def jsArrayGet (l : List String) (i : Option ℚ) : Option String :=
  match i with
  | none => none
  | some q => if q.den = 1 ∧ 0 ≤ q.num then l.get? q.num.toNat else none

/-! ### Date parsing (`new Date(v).getDate()`)

JavaScript's `new Date` never throws: an unparseable string yields an
*Invalid Date* whose `getDate()` is `NaN`.  The embedding covers the
ECMAScript date-only ISO forms `YYYY`, `YYYY-MM`, `YYYY-MM-DD` (the only
forms in this repository's data) and numeric timestamps; every other
string is an invalid date (`none` = `NaN`).  `getDate` is taken in UTC,
which matches the date-only forms. -/

/-- Whether a (proleptic Gregorian) year is a leap year. -/
def isLeapYear (y : ℤ) : Bool :=
  y % 4 = 0 && (y % 100 != 0 || y % 400 = 0)

/-- Number of days in a month of a given year. -/
def daysInMonth (y : ℤ) (m : ℕ) : ℕ :=
  if m = 2 then (if isLeapYear y then 29 else 28)
  else if m = 4 ∨ m = 6 ∨ m = 9 ∨ m = 11 then 30
  else 31

/-- Parses an ISO date-only string `YYYY[-MM[-DD]]` into
(year, month, day); month and day default to 1.  Returns `none` for
anything else (an invalid date in the modelled forms). -/
def parseIsoDate (s : String) : Option (ℤ × ℕ × ℕ) :=
  let cs := s.data
  let ys := cs.take 4
  if ys.length = 4 && ys.all Char.isDigit then
    let y : ℤ := (digitsVal ys : ℤ)
    match cs.drop 4 with
    | [] => some (y, 1, 1)
    | '-' :: rest =>
      let ms := rest.take 2
      if ms.length = 2 && ms.all Char.isDigit && 1 ≤ digitsVal ms && digitsVal ms ≤ 12 then
        let m := digitsVal ms
        match rest.drop 2 with
        | [] => some (y, m, 1)
        | '-' :: rest2 =>
          let ds := rest2.take 2
          if rest2.length = 2 && ds.all Char.isDigit
              && 1 ≤ digitsVal ds && digitsVal ds ≤ daysInMonth y m then
            some (y, m, digitsVal ds)
          else none
        | _ => none
      else none
    | _ => none
  else none

/-- Day of the month of the civil (Gregorian) date that is `z` days after
1970-01-01 (Howard Hinnant's `civil_from_days`). -/
def civilDayOfMonth (z : ℤ) : ℤ :=
  let z' := z + 719468
  let era := Int.fdiv z' 146097
  let doe := z' - era * 146097
  let yoe := Int.fdiv (doe - Int.fdiv doe 1460 + Int.fdiv doe 36524 - Int.fdiv doe 146096) 365
  let doy := doe - (365 * yoe + Int.fdiv yoe 4 - Int.fdiv yoe 100)
  let mp := Int.fdiv (5 * doy + 2) 153
  doy - Int.fdiv (153 * mp + 2) 5 + 1

/-- Embedding of `new Date(v).getDate()` (UTC): `none` is `NaN`
(invalid date).  A numeric argument is a millisecond timestamp, truncated
toward zero and rejected outside the representable range. -/
def jsDateGetDate : JsPrim → Option ℤ
  | .str s => (parseIsoDate s).map (fun t => (t.2.2 : ℤ))
  | .num q =>
    let ms : ℤ := q.num / (q.den : ℤ)
    if ms ≤ 8640000000000000 ∧ -8640000000000000 ≤ ms then
      some (civilDayOfMonth (Int.fdiv ms 86400000))
    else none

/-! ### Raw payload shapes

One record that can carry any of the four resource payloads, as the
dynamically typed `rawData` argument of the normalizers can.  A field
whose value would be present-but-not-an-array behaves exactly like an
absent one in the source (both take the invalid-shape guard branch), so
array-valued fields are modelled as `Option (List _)`. -/

/-- Raw `userInfos` sub-record. -/
structure RawUserInfos where
  firstName : Option String := none
  lastName : Option String := none
  age : Option ℚ := none
  deriving DecidableEq

/-- Raw `keyData` sub-record. -/
structure RawKeyData where
  calorieCount : Option ℚ := none
  proteinCount : Option ℚ := none
  carbohydrateCount : Option ℚ := none
  lipidCount : Option ℚ := none
  deriving DecidableEq

/-- One element of a raw `sessions` array (average-sessions entries carry
a numeric `day` and `sessionLength`; activity entries a string `day`,
`kilogram` and `calories`). -/
structure RawSession where
  day : Option JsPrim := none
  sessionLength : Option ℚ := none
  kilogram : Option ℚ := none
  calories : Option ℚ := none
  deriving DecidableEq

/-- One element of a raw performance `data` array. -/
structure RawPerfItem where
  value : Option ℚ := none
  kind : Option ℚ := none
  deriving DecidableEq

/-- Dynamically typed raw payload, the union of the fields the four
normalizers read.  The numeric-keyed `kind` side table is an association
list. -/
structure RawData where
  id : Option ℚ := none
  userId : Option ℚ := none
  userInfos : Option RawUserInfos := none
  todayScore : Option ℚ := none
  score : Option ℚ := none
  keyData : Option RawKeyData := none
  sessions : Option (List RawSession) := none
  kind : Option (List (ℚ × String)) := none
  data : Option (List RawPerfItem) := none
  deriving DecidableEq

/-! ### Normalized shapes -/

/-- Normalized `userInfos`. -/
structure UserInfos where
  firstName : String
  lastName : String
  age : ℚ
  deriving DecidableEq

/-- Normalized `keyData`. -/
structure KeyData where
  calorieCount : ℚ
  proteinCount : ℚ
  carbohydrateCount : ℚ
  lipidCount : ℚ
  deriving DecidableEq

/-- Normalized user profile. -/
structure UserData where
  id : ℚ
  userInfos : UserInfos
  todayScore : ℚ
  score : ℚ
  keyData : KeyData
  deriving DecidableEq

/-- Normalized performance entry. -/
structure PerfItem where
  value : ℚ
  kind : ℚ
  kindName : String
  deriving DecidableEq

/-- Normalized performance payload. -/
structure PerfData where
  userId : ℚ
  kind : List (ℚ × String)
  data : List PerfItem
  deriving DecidableEq

/-- Normalized average-session entry. -/
structure NormSession where
  day : JsPrim
  dayName : String
  dayNameFull : String
  sessionLength : ℚ
  sessionLengthRaw : ℚ
  deriving DecidableEq

/-- Normalized average-sessions payload. -/
structure SessionsData where
  userId : ℚ
  sessions : List NormSession
  deriving DecidableEq

/-- Normalized activity entry. -/
structure ActSession where
  day : JsPrim
  dayFormatted : JsIntNan
  dayName : String
  kilogram : ℚ
  calories : ℚ
  deriving DecidableEq

/-- Normalized activity payload. -/
structure ActivityData where
  userId : ℚ
  sessions : List ActSession
  deriving DecidableEq

namespace DataNormalizer

/-- Embedding of `DataNormalizer.PERFORMANCE_KIND_MAP` (numeric keys to
category slugs); `none` is an absent key (`undefined`). -/
def PERFORMANCE_KIND_MAP (k : ℚ) : Option String :=
  if k = 1 then some "cardio"
  else if k = 2 then some "energy"
  else if k = 3 then some "endurance"
  else if k = 4 then some "strength"
  else if k = 5 then some "speed"
  else if k = 6 then some "intensity"
  else none

/-- Embedding of `DataNormalizer.DAY_NAMES`. -/
def DAY_NAMES : List String := ["L", "M", "M", "J", "V", "S", "D"]

/-- Embedding of `DataNormalizer.DAY_NAMES_FULL`. -/
def DAY_NAMES_FULL : List String :=
  ["Lundi", "Mardi", "Mercredi", "Jeudi", "Vendredi", "Samedi", "Dimanche"]

/-- Embedding of `DataNormalizer.normalizeUser`; `none` models a missing
(`null`/`undefined`) payload, for which the source returns `null`. -/
def normalizeUser : Option RawData → Option UserData
  | none => none
  | some rawData =>
    let score := rawData.todayScore.getD (rawData.score.getD 0)
    some
      { id := rawData.id.getD 0
        userInfos :=
          { firstName := (rawData.userInfos.bind (·.firstName)).getD ""
            lastName := (rawData.userInfos.bind (·.lastName)).getD ""
            age := (rawData.userInfos.bind (·.age)).getD 0 }
        todayScore := score
        score := score
        keyData :=
          { calorieCount := (rawData.keyData.bind (·.calorieCount)).getD 0
            proteinCount := (rawData.keyData.bind (·.proteinCount)).getD 0
            carbohydrateCount := (rawData.keyData.bind (·.carbohydrateCount)).getD 0
            lipidCount := (rawData.keyData.bind (·.lipidCount)).getD 0 } }

/-- Embedding of the per-item mapping inside
`DataNormalizer.normalizePerformance`. -/
def normalizePerfItem (item : RawPerfItem) : PerfItem :=
  { value := item.value.getD 0
    kind := item.kind.getD 0
    kindName := (item.kind.bind PERFORMANCE_KIND_MAP).getD "unknown" }

/-- Embedding of `DataNormalizer.normalizePerformance`. -/
def normalizePerformance : Option RawData → Option PerfData
  | none => none
  | some rawData =>
    match rawData.data with
    | none =>
      some { userId := rawData.userId.getD 0, kind := rawData.kind.getD [], data := [] }
    | some items =>
      some
        { userId := rawData.userId.getD 0
          kind := rawData.kind.getD []
          data := items.map normalizePerfItem }

/-- Embedding of the per-session mapping inside
`DataNormalizer.normalizeSessions`. -/
def normalizeSessionEntry (session : RawSession) : NormSession :=
  { day := session.day.getD (.num 1)
    dayName := (jsArrayGet DAY_NAMES ((jsNumberOfPrim session.day).map (· - 1))).getD "?"
    dayNameFull :=
      (jsArrayGet DAY_NAMES_FULL ((jsNumberOfPrim session.day).map (· - 1))).getD "Inconnu"
    sessionLength := max (session.sessionLength.getD 1) 1
    sessionLengthRaw := session.sessionLength.getD 0 }

/-- Embedding of `DataNormalizer.normalizeSessions`. -/
def normalizeSessions : Option RawData → Option SessionsData
  | none => none
  | some rawData =>
    match rawData.sessions with
    | none => some { userId := rawData.userId.getD 0, sessions := [] }
    | some ss =>
      some { userId := rawData.userId.getD 0, sessions := ss.map normalizeSessionEntry }

/-- Embedding of the per-session mapping inside
`DataNormalizer.normalizeActivity`.  The source initializes
`dayFormatted = 0`, `dayName = '?'`, overwrites them from
`new Date(dayString).getDate()` when `dayString` is truthy, and its
`catch` never fires because `new Date` does not throw: an invalid date
makes `getDate()` return `NaN` and the template produces `"NaN"`. -/
def normalizeActivityEntry (session : RawSession) : ActSession :=
  let dayString := session.day.getD (.str "")
  let base : JsIntNan × String :=
    if dayString.truthy then
      match jsDateGetDate dayString with
      | some d => (.int d, toString d ++ (if d = 1 then "er" else ""))
      | none => (.nan, "NaN")
    else (.int 0, "?")
  { day := dayString
    dayFormatted := base.1
    dayName := base.2
    kilogram := session.kilogram.getD 0
    calories := session.calories.getD 0 }

/-- Embedding of `DataNormalizer.normalizeActivity`. -/
def normalizeActivity : Option RawData → Option ActivityData
  | none => none
  | some rawData =>
    match rawData.sessions with
    | none => some { userId := rawData.userId.getD 0, sessions := [] }
    | some ss =>
      some { userId := rawData.userId.getD 0, sessions := ss.map normalizeActivityEntry }

/-- Result of `DataNormalizer.normalizeByEndpoint`: which normalizer was
applied, or the payload passed through unchanged. -/
inductive Normalized where
  | user : Option UserData → Normalized
  | perf : Option PerfData → Normalized
  | sessions : Option SessionsData → Normalized
  | activity : Option ActivityData → Normalized
  | raw : Option RawData → Normalized
  deriving DecidableEq

/-- Embedding of `DataNormalizer.normalizeByEndpoint`.  The source first
returns `rawData` unchanged when `endpoint` or `rawData` is falsy, then
dispatches on the endpoint string in a fixed order; the surrounding
`try`/`catch` never fires because no normalizer throws. -/
def normalizeByEndpoint (endpoint : String) (rawData : Option RawData) : Normalized :=
  if endpoint = "" ∨ rawData = none then .raw rawData
  else if jsIncludes endpoint "/performance" then .perf (normalizePerformance rawData)
  else if jsIncludes endpoint "/average-sessions" then .sessions (normalizeSessions rawData)
  else if jsIncludes endpoint "/activity" then .activity (normalizeActivity rawData)
  else if matchesUserIdPath endpoint then .user (normalizeUser rawData)
  else .raw rawData

end DataNormalizer

/-! ### Chart transformers (`ChartTransformers.js`)

Each transformer reads only a handful of fields off its (dynamically
typed) input; the input records below carry exactly those fields. -/

namespace ActivityTransformer

/-- Fields of one session that `ActivityTransformer.format` reads. -/
structure FormatSession where
  day : Option JsPrim := none
  dayFormatted : Option JsIntNan := none
  kilogram : Option ℚ := none
  calories : Option ℚ := none
  deriving DecidableEq

/-- Input of `ActivityTransformer.format`. -/
structure FormatInput where
  sessions : Option (List FormatSession) := none
  deriving DecidableEq

/-- One formatted activity-chart session. -/
structure FormattedSession where
  day : ℕ
  kilogram : ℚ
  calories : ℚ
  displayDay : String
  originalDay : Option JsPrim
  dayFormatted : Option JsIntNan
  deriving DecidableEq

/-- Output of `ActivityTransformer.format`. -/
structure Formatted where
  sessions : List FormattedSession
  deriving DecidableEq

/-- Embedding of `ActivityTransformer.format`: relabels sessions with a
sequential 1-based index; an absent `sessions` field (or absent payload)
yields an empty session list. -/
def format (rawData : Option FormatInput) : Formatted :=
  match rawData.bind (·.sessions) with
  | none => { sessions := [] }
  | some ss =>
    { sessions :=
        (List.range ss.length).zip ss |>.map fun p =>
          { day := p.1 + 1
            kilogram := jsOrNum p.2.kilogram 0
            calories := jsOrNum p.2.calories 0
            displayDay := toString (p.1 + 1)
            originalDay := p.2.day
            dayFormatted := p.2.dayFormatted } }

end ActivityTransformer

namespace SessionsTransformer

/-- Fields of one session that `SessionsTransformer.addGhostPoints`
reads. -/
structure InputSession where
  day : Option JsPrim := none
  sessionLength : Option ℚ := none
  dayName : Option String := none
  dayNameFull : Option String := none
  sessionLengthRaw : Option ℚ := none
  deriving DecidableEq

/-- Input of `SessionsTransformer.addGhostPoints`. -/
structure GhostInput where
  sessions : Option (List InputSession) := none
  deriving DecidableEq

/-- One output point of the ghost-point transform.  Fields a ghost (or a
real session) does not carry are `none` (`undefined`). -/
structure GhostPoint where
  day : Option JsPrim
  dayIndex : Option JsPrim
  sessionLength : ℚ
  isReal : Bool
  isGhost : Option Bool
  dayName : Option String
  dayNameFull : Option String
  sessionLengthRaw : Option ℚ
  deriving DecidableEq

/-- Output of `SessionsTransformer.addGhostPoints`. -/
structure GhostOutput where
  sessions : List GhostPoint
  deriving DecidableEq

/-- Default point used to state positional facts via `List.getD`. -/
def dummyPoint : GhostPoint :=
  { day := none, dayIndex := none, sessionLength := 0, isReal := false
    isGhost := none, dayName := none, dayNameFull := none, sessionLengthRaw := none }

/-- Embedding of the mapping building `realSessions` inside
`SessionsTransformer.addGhostPoints`. -/
def realSession (session : InputSession) : GhostPoint :=
  { day := session.day
    dayIndex := session.day
    sessionLength := jsOrNum session.sessionLength 0
    isReal := true
    isGhost := none
    dayName := session.dayName
    dayNameFull := session.dayNameFull
    sessionLengthRaw := session.sessionLengthRaw }

/-- Embedding of `SessionsTransformer.addGhostPoints`: brackets a
non-empty session list with a day-0 and a day-8 ghost cloning the first
and last real lengths; an empty or absent list yields an empty output. -/
def addGhostPoints (rawData : Option GhostInput) : GhostOutput :=
  match rawData.bind (·.sessions) with
  | none => { sessions := [] }
  | some [] => { sessions := [] }
  | some (s₀ :: rest) =>
    let realSessions := (s₀ :: rest).map realSession
    let firstSession := realSession s₀
    let ghostStart : GhostPoint :=
      { day := some (.num 0), dayIndex := some (.num 0)
        sessionLength := firstSession.sessionLength
        isReal := false, isGhost := some true
        dayName := none, dayNameFull := none, sessionLengthRaw := none }
    let lastSession := realSessions.getLast (List.cons_ne_nil _ _)
    let ghostEnd : GhostPoint :=
      { day := some (.num 8), dayIndex := some (.num 8)
        sessionLength := lastSession.sessionLength
        isReal := false, isGhost := some true
        dayName := none, dayNameFull := none, sessionLengthRaw := none }
    { sessions := ghostStart :: realSessions ++ [ghostEnd] }

end SessionsTransformer

namespace PerformanceTransformer

/-- Fields of one performance `data` item that
`PerformanceTransformer.formatForRadar` reads. -/
structure RadarItem where
  value : Option ℚ := none
  kind : Option ℚ := none
  kindName : Option String := none
  deriving DecidableEq

/-- Input of `PerformanceTransformer.formatForRadar`. -/
structure RadarInput where
  kind : Option (List (ℚ × String)) := none
  data : Option (List RadarItem) := none
  deriving DecidableEq

/-- One radar-chart entry.  `value` is `item.value` of the matched item
(possibly `undefined`), or 0 when no item matched. -/
structure RadarEntry where
  subject : String
  value : Option ℚ
  fullMark : ℚ
  deriving DecidableEq

/-- Embedding of `PerformanceTransformer.TRANSLATIONS` (slug to French
label); `none` is an absent key. -/
def TRANSLATIONS (k : String) : Option String :=
  if k = "cardio" then some "Cardio"
  else if k = "energy" then some "Énergie"
  else if k = "endurance" then some "Endurance"
  else if k = "strength" then some "Force"
  else if k = "speed" then some "Vitesse"
  else if k = "intensity" then some "Intensité"
  else none

/-- Embedding of `PerformanceTransformer.RADAR_ORDER`. -/
def RADAR_ORDER : List String :=
  ["Intensité", "Vitesse", "Force", "Endurance", "Énergie", "Cardio"]

/-- Predicate of the `find` inside `formatForRadar`: a truthy (non-empty)
`kindName` is translated and compared; otherwise the raw `kind` side
table is consulted (`false` when that table is absent). -/
def radarItemMatches (rawData : RadarInput) (frenchName : String) (d : RadarItem) : Bool :=
  match d.kindName with
  | some k =>
    if k ≠ "" then TRANSLATIONS k == some frenchName
    else
      match rawData.kind with
      | some tbl => ((d.kind.bind fun q => tbl.lookup q).bind TRANSLATIONS) == some frenchName
      | none => false
  | none =>
    match rawData.kind with
    | some tbl => ((d.kind.bind fun q => tbl.lookup q).bind TRANSLATIONS) == some frenchName
    | none => false

/-- Embedding of `PerformanceTransformer.formatForRadar`: one output
entry per `RADAR_ORDER` slot when the `data` array is present, the empty
list otherwise. -/
def formatForRadar (rawData : Option RadarInput) : List RadarEntry :=
  match rawData with
  | none => []
  | some r =>
    match r.data with
    | none => []
    | some items =>
      RADAR_ORDER.map fun frenchName =>
        { subject := frenchName
          value :=
            match items.find? (radarItemMatches r frenchName) with
            | some item => item.value
            | none => some 0
          fullMark := 250 }

end PerformanceTransformer

namespace ScoreTransformer

/-- Fields that `ScoreTransformer.calculatePercentage` reads. -/
structure ScoreInput where
  score : Option ℚ := none
  todayScore : Option ℚ := none
  deriving DecidableEq

/-- Output of `ScoreTransformer.calculatePercentage`. -/
structure ScoreOutput where
  percentage : ℤ
  deriving DecidableEq

/-- Embedding of JavaScript `Math.round`: floor of the argument plus one
half (round half toward positive infinity). -/
def jsMathRound (q : ℚ) : ℤ := ⌊q + 1/2⌋

/-- Embedding of `ScoreTransformer.calculatePercentage`. -/
def calculatePercentage (rawData : Option ScoreInput) : ScoreOutput :=
  match rawData with
  | none => { percentage := 0 }
  | some r =>
    let score := jsOrNum r.score (jsOrNum r.todayScore 0)
    let percentage := jsMathRound (score * 100)
    { percentage := max 0 (min 100 percentage) }

end ScoreTransformer

/-! ### Mock fetch gateway (`DataService.js`, mock mode) -/

namespace DataService

/-- Embedding of `DataService.USE_MOCK_DATA`. -/
def USE_MOCK_DATA : Bool := true

/-- Embedding of `DataService.DEFAULT_USER_ID`. -/
def DEFAULT_USER_ID : ℕ := 18

/-- Embedding of `mockUserData.data` (user 12, Karl). -/
def mockUserData : RawData :=
  { id := some 12
    userInfos := some { firstName := some "Karl", lastName := some "Dovineau", age := some 31 }
    todayScore := some (12/100)
    keyData := some { calorieCount := some 1930, proteinCount := some 155
                      carbohydrateCount := some 290, lipidCount := some 50 } }

/-- Embedding of `mockActivityData.data` (user 12). -/
def mockActivityData : RawData :=
  { userId := some 12
    sessions := some
      [ { day := some (.str "2020-07-01"), kilogram := some 80, calories := some 240 }
      , { day := some (.str "2020-07-02"), kilogram := some 80, calories := some 220 }
      , { day := some (.str "2020-07-03"), kilogram := some 81, calories := some 280 }
      , { day := some (.str "2020-07-04"), kilogram := some 81, calories := some 290 }
      , { day := some (.str "2020-07-05"), kilogram := some 80, calories := some 160 }
      , { day := some (.str "2020-07-06"), kilogram := some 78, calories := some 162 }
      , { day := some (.str "2020-07-07"), kilogram := some 76, calories := some 390 } ] }

/-- Embedding of `mockSessionsData.data` (user 12). -/
def mockSessionsData : RawData :=
  { userId := some 12
    sessions := some
      [ { day := some (.num 1), sessionLength := some 30 }
      , { day := some (.num 2), sessionLength := some 23 }
      , { day := some (.num 3), sessionLength := some 45 }
      , { day := some (.num 4), sessionLength := some 50 }
      , { day := some (.num 5), sessionLength := some 0 }
      , { day := some (.num 6), sessionLength := some 0 }
      , { day := some (.num 7), sessionLength := some 60 } ] }

/-- Embedding of the numeric-keyed `kind` side table shared by the mock
performance payloads. -/
def mockKindTable : List (ℚ × String) :=
  [(1, "cardio"), (2, "energy"), (3, "endurance"), (4, "strength"), (5, "speed"), (6, "intensity")]

/-- Embedding of `mockPerformanceData.data` (user 12). -/
def mockPerformanceData : RawData :=
  { userId := some 12
    kind := some mockKindTable
    data := some
      [ { value := some 80, kind := some 1 }
      , { value := some 120, kind := some 2 }
      , { value := some 140, kind := some 3 }
      , { value := some 50, kind := some 4 }
      , { value := some 200, kind := some 5 }
      , { value := some 90, kind := some 6 } ] }

/-- Embedding of `mockUserDataUser18.data` (user 18, Cecilia). -/
def mockUserDataUser18 : RawData :=
  { id := some 18
    userInfos := some { firstName := some "Cecilia", lastName := some "Ratorez", age := some 34 }
    todayScore := some (3/10)
    keyData := some { calorieCount := some 2103, proteinCount := some 132
                      carbohydrateCount := some 271, lipidCount := some 68 } }

/-- Embedding of `mockActivityDataUser18.data`. -/
def mockActivityDataUser18 : RawData :=
  { userId := some 18
    sessions := some
      [ { day := some (.str "2020-07-01"), kilogram := some 70, calories := some 300 }
      , { day := some (.str "2020-07-02"), kilogram := some 69, calories := some 350 }
      , { day := some (.str "2020-07-03"), kilogram := some 70, calories := some 320 }
      , { day := some (.str "2020-07-04"), kilogram := some 70, calories := some 280 }
      , { day := some (.str "2020-07-05"), kilogram := some 69, calories := some 400 }
      , { day := some (.str "2020-07-06"), kilogram := some 68, calories := some 450 }
      , { day := some (.str "2020-07-07"), kilogram := some 67, calories := some 380 } ] }

/-- Embedding of `mockSessionsDataUser18.data`. -/
def mockSessionsDataUser18 : RawData :=
  { userId := some 18
    sessions := some
      [ { day := some (.num 1), sessionLength := some 45 }
      , { day := some (.num 2), sessionLength := some 35 }
      , { day := some (.num 3), sessionLength := some 60 }
      , { day := some (.num 4), sessionLength := some 25 }
      , { day := some (.num 5), sessionLength := some 55 }
      , { day := some (.num 6), sessionLength := some 40 }
      , { day := some (.num 7), sessionLength := some 70 } ] }

/-- Embedding of `mockPerformanceDataUser18.data`. -/
def mockPerformanceDataUser18 : RawData :=
  { userId := some 18
    kind := some mockKindTable
    data := some
      [ { value := some 150, kind := some 1 }
      , { value := some 180, kind := some 2 }
      , { value := some 200, kind := some 3 }
      , { value := some 90, kind := some 4 }
      , { value := some 250, kind := some 5 }
      , { value := some 160, kind := some 6 } ] }

/-- Embedding of `DataService.mockDataMap` (keys are the literal values
of the template strings built from `DEFAULT_USER_ID = 18`). -/
def mockDataMap : List (String × RawData) :=
  [ ("/user/18", mockUserDataUser18)
  , ("/user/18/activity", mockActivityDataUser18)
  , ("/user/18/average-sessions", mockSessionsDataUser18)
  , ("/user/18/performance", mockPerformanceDataUser18)
  , ("/user/12", mockUserData)
  , ("/user/12/activity", mockActivityData)
  , ("/user/12/average-sessions", mockSessionsData)
  , ("/user/12/performance", mockPerformanceData) ]

/-- Names of the members every plain object literal (such as
`mockDataMap`) inherits from `Object.prototype`: the JavaScript property
read `mockDataMap[endpoint]` yields these inherited members instead of
`undefined`, so the `!mockFunction` guard in `_getMockData` does not
fire on them (they are all truthy: functions, and for `__proto__` the
`Object.prototype` object itself). -/
def objectProtoNames : List String :=
  [ "constructor", "hasOwnProperty", "isPrototypeOf", "propertyIsEnumerable"
  , "toLocaleString", "toString", "valueOf", "__proto__"
  , "__defineGetter__", "__defineSetter__", "__lookupGetter__", "__lookupSetter__" ]

/-- Non-payload JavaScript value that escapes `_getMockData` when an
inherited `Object.prototype` member is hit. -/
inductive LeakedValue where
  | str (s : String)
  | bool (b : Bool)
  | emptyObject
  deriving DecidableEq

/-- Result of a mock fetch: the normalized payload, a thrown `Error`
carrying its message (the not-found path), a thrown `TypeError`, or a
leaked non-payload value from the prototype chain. -/
inductive FetchResult where
  | ok : DataNormalizer.Normalized → FetchResult
  | error : String → FetchResult
  | typeError : FetchResult
  | leak : LeakedValue → FetchResult
  deriving DecidableEq

/-- Outcome of `_getMockData` on an inherited `Object.prototype` member
name: the member is extracted into `mockFunction` and invoked as
`mockFunction()` — strict mode (ES module), so `this` is `undefined`.
`toString` returns `"[object Undefined]"`; `constructor` (the `Object`
function) returns a fresh empty object; `isPrototypeOf` returns `false`
(its argument is not an object, checked before `ToObject(this)`); every
other member throws a `TypeError` (`ToObject(undefined)` inside it, or,
for the object the `__proto__` accessor returns, calling a
non-function).  The returned values then pass through
`normalizeByEndpoint` unchanged, because no inherited member name
matches a dispatch pattern (see `objectProtoNames_no_dispatch`) and a
falsy value short-circuits its guard. -/
def inheritedCallOutcome (name : String) : FetchResult :=
  if name = "toString" then .leak (.str "[object Undefined]")
  else if name = "constructor" then .leak .emptyObject
  else if name = "isPrototypeOf" then .leak (.bool false)
  else .typeError

/-- Embedding of `DataService._getMockData`: the property read
`mockDataMap[endpoint]` finds an own entry, or an inherited
`Object.prototype` member, or `undefined`; only the last makes the
`!mockFunction` guard throw the not-found error.  An own entry's data is
normalized by `normalizeByEndpoint`; an inherited member is invoked and
its outcome leaks through untouched. -/
def getMockData (endpoint : String) : FetchResult :=
  match mockDataMap.lookup endpoint with
  | some rawData => .ok (DataNormalizer.normalizeByEndpoint endpoint (some rawData))
  | none =>
    if endpoint ∈ objectProtoNames then inheritedCallOutcome endpoint
    else .error ("Données mockées non trouvées pour: " ++ endpoint)

/-- Embedding of `DataService.fetchData` in mock mode (the static
`USE_MOCK_DATA` flag is `true` in the source). -/
def fetchData (endpoint : String) : FetchResult :=
  if USE_MOCK_DATA then getMockData endpoint
  else .error "live mode out of scope"

end DataService

/-! ### Spec-side definitions

These follow the specification's words, independently of the source, and
are compared with the source-derived definitions in refinement
theorems. -/

/-- Resource kind of an endpoint, as the specification describes the
dispatch: substring match in the fixed priority order performance,
average-sessions, activity, then the profile-path pattern; anything else
is an unknown kind. -/
inductive ResourceKind where
  | performance
  | averageSessions
  | activity
  | profile
  | unknown
  deriving DecidableEq

/-- Dispatch classification following the specification's words. -/
def specResourceKind (endpoint : String) : ResourceKind :=
  if jsIncludes endpoint "/performance" then .performance
  else if jsIncludes endpoint "/average-sessions" then .averageSessions
  else if jsIncludes endpoint "/activity" then .activity
  else if matchesUserIdPath endpoint then .profile
  else .unknown

/-- Normalizer selected by a resource kind, unknown kinds passing the
payload through unchanged (the spec's identity normalization). -/
def applyKindNormalizer (k : ResourceKind) (rawData : Option RawData) :
    DataNormalizer.Normalized :=
  match k with
  | .performance => .perf (DataNormalizer.normalizePerformance rawData)
  | .averageSessions => .sessions (DataNormalizer.normalizeSessions rawData)
  | .activity => .activity (DataNormalizer.normalizeActivity rawData)
  | .profile => .user (DataNormalizer.normalizeUser rawData)
  | .unknown => .raw rawData

/-- Round half up, as the specification words it: the floor of the
number, plus one exactly when the fractional part has reached one
half. -/
def specRoundHalfUp (q : ℚ) : ℤ :=
  ⌊q⌋ + (if 1/2 ≤ Int.fract q then 1 else 0)

/-- Predicate for the spec's "non-negative integer" nutrient values. -/
def IsNonnegInt (q : ℚ) : Prop := 0 ≤ q ∧ q.den = 1

instance (q : ℚ) : Decidable (IsNonnegInt q) := by
  unfold IsNonnegInt; infer_instance

/-! ### Claims -/

open DataNormalizer in
/-- Claim C10: for every non-null raw profile payload, the record
returned by `normalizeUser` carries both legacy score field names with
the same unified value: `todayScore` always equals `score`. -/
theorem normalizeUser_unifies_todayScore_score (raw : RawData) (u : UserData)
    (h : normalizeUser (some raw) = some u) : u.todayScore = u.score := by
  have h' := Option.some.inj h
  subst h'
  rfl

open DataNormalizer in
/-- Witness for C10 at the concrete payload `{ todayScore: 3/10 }`. -/
theorem normalizeUser_unifies_todayScore_score_witness :
    (⟨0, ⟨"", "", 0⟩, 3/10, 3/10, ⟨0, 0, 0, 0⟩⟩ : UserData).todayScore
      = (⟨0, ⟨"", "", 0⟩, 3/10, 3/10, ⟨0, 0, 0, 0⟩⟩ : UserData).score :=
  normalizeUser_unifies_todayScore_score { todayScore := some (3/10) } _ rfl

open DataNormalizer in
/-- Claim C1 as stated is false: `normalizeUser` does not clamp the
score, so the payload `{ todayScore: 2 }` normalizes to a record whose
unified score is 2, outside `[0,1]`. -/
theorem normalizeUser_score_unclamped_cex :
    ¬ (∀ (raw : RawData) (u : UserData), normalizeUser (some raw) = some u →
        (0 ≤ u.score ∧ u.score ≤ 1) ∧
        IsNonnegInt u.keyData.calorieCount ∧ IsNonnegInt u.keyData.proteinCount ∧
        IsNonnegInt u.keyData.carbohydrateCount ∧ IsNonnegInt u.keyData.lipidCount) := by
  intro h
  have h2 : (2 : ℚ) ≤ 1 := (h { todayScore := some 2 } _ rfl).1.2
  norm_num at h2

open DataNormalizer in
/-- Claim C1 (amended): `normalizeUser` preserves the invariant rather
than enforcing it.  If the raw payload's score fields, when present, lie
in `[0,1]` and its nutrient fields, when present, are non-negative
integers, then the normalized record's unified score lies in `[0,1]` and
its four `keyData` nutrient fields are non-negative integers (missing
fields default to 0, which satisfies both). -/
theorem normalizeUser_preserves_score_interval (raw : RawData) (u : UserData)
    (hts : ∀ q, raw.todayScore = some q → 0 ≤ q ∧ q ≤ 1)
    (hsc : ∀ q, raw.score = some q → 0 ≤ q ∧ q ≤ 1)
    (hkd : ∀ kd, raw.keyData = some kd →
      (∀ q, kd.calorieCount = some q → IsNonnegInt q) ∧
      (∀ q, kd.proteinCount = some q → IsNonnegInt q) ∧
      (∀ q, kd.carbohydrateCount = some q → IsNonnegInt q) ∧
      (∀ q, kd.lipidCount = some q → IsNonnegInt q))
    (h : normalizeUser (some raw) = some u) :
    (0 ≤ u.score ∧ u.score ≤ 1) ∧
    IsNonnegInt u.keyData.calorieCount ∧ IsNonnegInt u.keyData.proteinCount ∧
    IsNonnegInt u.keyData.carbohydrateCount ∧ IsNonnegInt u.keyData.lipidCount := by
  have h' := Option.some.inj h
  subst h'
  have hzero : IsNonnegInt 0 := by constructor <;> norm_num
  have hscore : 0 ≤ raw.todayScore.getD (raw.score.getD 0) ∧
      raw.todayScore.getD (raw.score.getD 0) ≤ 1 := by
    rcases h1 : raw.todayScore with _ | q
    · rcases h2 : raw.score with _ | q
      · simp
      · simpa using hsc q h2
    · simpa using hts q h1
  refine ⟨hscore, ?_, ?_, ?_, ?_⟩ <;>
    · rcases hk : raw.keyData with _ | kd
      · simpa using hzero
      · obtain ⟨hc, hp, hh, hl⟩ := hkd kd hk
        first
        | (rcases hf : kd.calorieCount with _ | q
           · simpa [hf] using hzero
           · simpa [hf] using hc q hf)
        | (rcases hf : kd.proteinCount with _ | q
           · simpa [hf] using hzero
           · simpa [hf] using hp q hf)
        | (rcases hf : kd.carbohydrateCount with _ | q
           · simpa [hf] using hzero
           · simpa [hf] using hh q hf)
        | (rcases hf : kd.lipidCount with _ | q
           · simpa [hf] using hzero
           · simpa [hf] using hl q hf)

open DataNormalizer in
/-- Witness for the amended C1 at the concrete payload
`{ todayScore: 1, keyData: { 2103, 132, 271, 68 } }`. -/
theorem normalizeUser_preserves_score_interval_witness :
    (0 ≤ (⟨0, ⟨"", "", 0⟩, 1, 1, ⟨2103, 132, 271, 68⟩⟩ : UserData).score ∧
      (⟨0, ⟨"", "", 0⟩, 1, 1, ⟨2103, 132, 271, 68⟩⟩ : UserData).score ≤ 1) ∧
    IsNonnegInt (⟨0, ⟨"", "", 0⟩, 1, 1, ⟨2103, 132, 271, 68⟩⟩ : UserData).keyData.calorieCount ∧
    IsNonnegInt (⟨0, ⟨"", "", 0⟩, 1, 1, ⟨2103, 132, 271, 68⟩⟩ : UserData).keyData.proteinCount ∧
    IsNonnegInt (⟨0, ⟨"", "", 0⟩, 1, 1, ⟨2103, 132, 271, 68⟩⟩ : UserData).keyData.carbohydrateCount ∧
    IsNonnegInt (⟨0, ⟨"", "", 0⟩, 1, 1, ⟨2103, 132, 271, 68⟩⟩ : UserData).keyData.lipidCount :=
  normalizeUser_preserves_score_interval
    { todayScore := some 1
      keyData := some { calorieCount := some 2103, proteinCount := some 132
                        carbohydrateCount := some 271, lipidCount := some 68 } }
    _
    (fun q hq => by cases Option.some.inj hq; constructor <;> norm_num)
    (fun q hq => by cases hq)
    (fun kd hkd => by
      cases Option.some.inj hkd
      refine ⟨?_, ?_, ?_, ?_⟩ <;> (intro q hq; cases Option.some.inj hq; constructor <;> norm_num))
    rfl

open DataNormalizer in
/-- Claim C2 (code bug): the source intends invalid dates to keep the
`dayFormatted = 0` / `dayName = "?"` fallbacks (its `catch` logs "Date
invalide"), but `new Date` never throws, so a session whose non-empty
date string fails to parse yields `dayFormatted = NaN` and
`dayName = "NaN"` instead, while the rest of the batch is still
normalized normally and nothing is thrown. -/
theorem normalizeActivity_invalid_date_nan :
    normalizeActivity (some
      { userId := some 12
        sessions := some
          [ { day := some (.str "not-a-date") }
          , { day := some (.str "2020-07-02"), kilogram := some 80, calories := some 220 } ] })
      = some
        { userId := 12
          sessions :=
            [ { day := .str "not-a-date", dayFormatted := .nan, dayName := "NaN"
                kilogram := 0, calories := 0 }
            , { day := .str "2020-07-02", dayFormatted := .int 2, dayName := "2"
                kilogram := 80, calories := 220 } ] } := by
  decide

open PerformanceTransformer ScoreTransformer ActivityTransformer in
/-- Claim C3 as stated is false for absent input: `formatForRadar`
returns the empty list, not a six-axis all-zero radar, when the payload
(or its `data` field) is absent. -/
theorem formatForRadar_absent_input_cex :
    formatForRadar none = [] ∧ (formatForRadar none).length ≠ 6 := by
  decide

open PerformanceTransformer ScoreTransformer ActivityTransformer in
/-- Claim C3 (amended): for empty or absent input each transformer
returns an empty-but-well-formed output rather than failing:
`ActivityTransformer.format` returns an empty session list,
`ScoreTransformer.calculatePercentage` returns a 0% score, and
`PerformanceTransformer.formatForRadar` returns the all-zero six-axis
radar when the `data` list is present but empty and the empty list when
the payload or its `data` field is absent. -/
theorem transformers_empty_input_wellformed :
    format none = { sessions := [] } ∧
    format (some { sessions := none }) = { sessions := [] } ∧
    format (some { sessions := some [] }) = { sessions := [] } ∧
    formatForRadar none = [] ∧
    formatForRadar (some { kind := none, data := none }) = [] ∧
    formatForRadar (some { kind := none, data := some [] }) =
      [ { subject := "Intensité", value := some 0, fullMark := 250 }
      , { subject := "Vitesse", value := some 0, fullMark := 250 }
      , { subject := "Force", value := some 0, fullMark := 250 }
      , { subject := "Endurance", value := some 0, fullMark := 250 }
      , { subject := "Énergie", value := some 0, fullMark := 250 }
      , { subject := "Cardio", value := some 0, fullMark := 250 } ] ∧
    calculatePercentage none = { percentage := 0 } ∧
    calculatePercentage (some { score := none, todayScore := none }) = { percentage := 0 } := by
  refine ⟨rfl, rfl, rfl, rfl, rfl, by decide, rfl, ?_⟩
  simp only [calculatePercentage, jsOrNum, jsMathRound]
  norm_num

/-- JavaScript's `Math.round` (floor of the argument plus one half)
computes exactly the spec's round-half-up. -/
theorem jsMathRound_eq_specRoundHalfUp (q : ℚ) :
    ScoreTransformer.jsMathRound q = specRoundHalfUp q := by
  unfold ScoreTransformer.jsMathRound specRoundHalfUp
  have h0 : (0 : ℚ) ≤ Int.fract q := Int.fract_nonneg q
  have h1 : Int.fract q < 1 := Int.fract_lt_one q
  have hsplit : q + 1/2 = (⌊q⌋ : ℚ) + (Int.fract q + 1/2) := by
    rw [← add_assoc, Int.floor_add_fract]
  rw [hsplit, Int.floor_int_add]
  by_cases hc : (1 : ℚ)/2 ≤ Int.fract q
  · have : ⌊Int.fract q + 1/2⌋ = 1 := by
      rw [Int.floor_eq_iff]
      constructor <;> push_cast <;> linarith
    rw [this, if_pos hc]
  · have : ⌊Int.fract q + 1/2⌋ = 0 := by
      rw [Int.floor_eq_iff]
      constructor <;> push_cast <;> [linarith; linarith [lt_of_not_le hc]]
    rw [this, if_neg hc]

open ScoreTransformer in
/-- Claim C6: `calculatePercentage` computes `percentage` as the
round-half-up of the selected score times 100, clamped into `[0,100]`;
in particular `{todayScore: 0.3}` gives 30, `{score: 1.2}` clamps to
100, `{todayScore: -0.1}` clamps to 0, and `{}` gives 0. -/
theorem calculatePercentage_round_half_up_clamp :
    (∀ r : ScoreInput, calculatePercentage (some r) =
      { percentage :=
          max 0 (min 100 (specRoundHalfUp (jsOrNum r.score (jsOrNum r.todayScore 0) * 100))) }) ∧
    calculatePercentage (some { todayScore := some (3/10) }) = { percentage := 30 } ∧
    calculatePercentage (some { score := some (12/10) }) = { percentage := 100 } ∧
    calculatePercentage (some { todayScore := some (-(1/10)) }) = { percentage := 0 } ∧
    calculatePercentage (some { }) = { percentage := 0 } := by
  refine ⟨fun r => ?_, ?_, ?_, ?_, ?_⟩
  · simp only [calculatePercentage, jsMathRound_eq_specRoundHalfUp]
  all_goals
    simp only [calculatePercentage, jsOrNum, jsMathRound]
    norm_num

open DataNormalizer in
/-- Claim C7: for every session entry with a defined `sessionLength L`,
`normalizeSessions` sets the display `sessionLength` to `max L 1` while
the retained `sessionLengthRaw` equals the original `L`; the output
session list is the entrywise normalization of the input list. -/
theorem normalizeSessions_display_max_raw_preserved
    (raw : RawData) (ss : List RawSession) (out : SessionsData)
    (hss : raw.sessions = some ss)
    (hout : normalizeSessions (some raw) = some out) :
    out.sessions = ss.map normalizeSessionEntry ∧
    ∀ (s : RawSession) (L : ℚ), s.sessionLength = some L →
      (normalizeSessionEntry s).sessionLength = max L 1 ∧
      (normalizeSessionEntry s).sessionLengthRaw = L := by
  constructor
  · simp only [normalizeSessions, hss] at hout
    have h' := Option.some.inj hout
    subst h'
    rfl
  · intro s L hL
    constructor
    · simp [normalizeSessionEntry, hL]
    · simp [normalizeSessionEntry, hL]

open DataNormalizer in
/-- Witness for C7 at a session with `sessionLength = 0`: the display
length is `max 0 1` while the raw length stays 0. -/
theorem normalizeSessions_display_max_raw_preserved_witness :
    (normalizeSessionEntry { day := some (.num 5), sessionLength := some 0 }).sessionLength
      = max 0 1 ∧
    (normalizeSessionEntry { day := some (.num 5), sessionLength := some 0 }).sessionLengthRaw
      = 0 :=
  (normalizeSessions_display_max_raw_preserved
      { sessions := some [{ day := some (.num 5), sessionLength := some 0 }] }
      [{ day := some (.num 5), sessionLength := some 0 }]
      { userId := 0
        sessions := [normalizeSessionEntry { day := some (.num 5), sessionLength := some 0 }] }
      rfl rfl).2
    { day := some (.num 5), sessionLength := some 0 } 0 rfl

open SessionsTransformer in
/-- Claim C4: for every non-empty 7-entry sessions input,
`addGhostPoints` returns exactly 9 entries, entries 0 and 8 are flagged
non-real and entries 1 through 7 real, entry 0's length equals the first
real entry's (entry 1's) length and entry 8's equals the last real
entry's (entry 7's) length. -/
theorem addGhostPoints_seven_entries
    (raw : GhostInput) (ss : List InputSession)
    (hss : raw.sessions = some ss) (h7 : ss.length = 7) :
    (addGhostPoints (some raw)).sessions.length = 9 ∧
    (addGhostPoints (some raw)).sessions.map GhostPoint.isReal =
      [false, true, true, true, true, true, true, true, false] ∧
    ((addGhostPoints (some raw)).sessions.getD 0 dummyPoint).sessionLength =
      ((addGhostPoints (some raw)).sessions.getD 1 dummyPoint).sessionLength ∧
    ((addGhostPoints (some raw)).sessions.getD 8 dummyPoint).sessionLength =
      ((addGhostPoints (some raw)).sessions.getD 7 dummyPoint).sessionLength := by
  rcases ss with _ | ⟨s1, ss⟩; · simp at h7
  rcases ss with _ | ⟨s2, ss⟩; · simp at h7
  rcases ss with _ | ⟨s3, ss⟩; · simp at h7
  rcases ss with _ | ⟨s4, ss⟩; · simp at h7
  rcases ss with _ | ⟨s5, ss⟩; · simp at h7
  rcases ss with _ | ⟨s6, ss⟩; · simp at h7
  rcases ss with _ | ⟨s7, ss⟩; · simp at h7
  rcases ss with _ | ⟨s8, ss⟩
  · refine ⟨?_, ?_, ?_, ?_⟩ <;> simp [addGhostPoints, hss, List.getLast, realSession]
  · simp at h7

open SessionsTransformer in
/-- Concrete 7-entry sessions-chart input (user 12's mock week) used by
the C4 witness. -/
def ghostWitnessInput : GhostInput :=
  { sessions := some
      [ { day := some (.num 1), sessionLength := some 30 }
      , { day := some (.num 2), sessionLength := some 23 }
      , { day := some (.num 3), sessionLength := some 45 }
      , { day := some (.num 4), sessionLength := some 50 }
      , { day := some (.num 5), sessionLength := some 0 }
      , { day := some (.num 6), sessionLength := some 0 }
      , { day := some (.num 7), sessionLength := some 60 } ] }

open SessionsTransformer in
/-- Witness for C4 at the concrete 7-entry mock sessions input of
user 12. -/
theorem addGhostPoints_seven_entries_witness :
    (addGhostPoints (some ghostWitnessInput)).sessions.length = 9 ∧
    (addGhostPoints (some ghostWitnessInput)).sessions.map GhostPoint.isReal =
      [false, true, true, true, true, true, true, true, false] ∧
    ((addGhostPoints (some ghostWitnessInput)).sessions.getD 0 dummyPoint).sessionLength =
      ((addGhostPoints (some ghostWitnessInput)).sessions.getD 1 dummyPoint).sessionLength ∧
    ((addGhostPoints (some ghostWitnessInput)).sessions.getD 8 dummyPoint).sessionLength =
      ((addGhostPoints (some ghostWitnessInput)).sessions.getD 7 dummyPoint).sessionLength :=
  addGhostPoints_seven_entries ghostWitnessInput _ rfl rfl

/-- Default radar entry used to state positional facts via `List.getD`. -/
def dummyRadarEntry : PerformanceTransformer.RadarEntry :=
  { subject := "", value := none, fullMark := 0 }

open PerformanceTransformer in
/-- Finding helper for C5: when every item carries a truthy `kindName`
whose translation differs from `frenchName`, the `find` inside
`formatForRadar` comes up empty. -/
theorem radar_find_none (raw : RadarInput) (items : List RadarItem) (frenchName : String)
    (hsub : ∀ d ∈ items, ∃ k, d.kindName = some k ∧
      k ∈ ["cardio", "energy", "endurance", "strength", "speed", "intensity"])
    (habs : ∀ d ∈ items, d.kindName.bind TRANSLATIONS ≠ some frenchName) :
    items.find? (radarItemMatches raw frenchName) = none := by
  rw [List.find?_eq_none]
  intro d hd
  obtain ⟨k, hk, hkmem⟩ := hsub d hd
  have hke : k ≠ "" := by rintro rfl; simp at hkmem
  have htr : TRANSLATIONS k ≠ some frenchName := by
    have h := habs d hd
    rw [hk] at h
    simpa using h
  simp [radarItemMatches, hk, hke]
  exact htr

open PerformanceTransformer in
/-- Claim C5: for every performance input whose entries all carry one of
the six known category slugs, `formatForRadar` returns exactly 6 entries
in the fixed order [Intensité, Vitesse, Force, Endurance, Énergie,
Cardio], each with `fullMark` 250, and a category absent from the input
yields value 0 in its slot. -/
theorem formatForRadar_fixed_six_slots (raw : RadarInput) (items : List RadarItem)
    (hdata : raw.data = some items)
    (hsub : ∀ d ∈ items, ∃ k, d.kindName = some k ∧
      k ∈ ["cardio", "energy", "endurance", "strength", "speed", "intensity"]) :
    (formatForRadar (some raw)).length = 6 ∧
    (formatForRadar (some raw)).map RadarEntry.subject =
      ["Intensité", "Vitesse", "Force", "Endurance", "Énergie", "Cardio"] ∧
    (formatForRadar (some raw)).map RadarEntry.fullMark = [250, 250, 250, 250, 250, 250] ∧
    ∀ i, i < 6 →
      (∀ d ∈ items, d.kindName.bind TRANSLATIONS ≠
        some (["Intensité", "Vitesse", "Force", "Endurance", "Énergie", "Cardio"].getD i "")) →
      ((formatForRadar (some raw)).getD i dummyRadarEntry).value = some 0 := by
  have hfr : formatForRadar (some raw) =
      RADAR_ORDER.map (fun frenchName =>
        { subject := frenchName
          value :=
            match items.find? (radarItemMatches raw frenchName) with
            | some item => item.value
            | none => some 0
          fullMark := 250 }) := by
    simp only [formatForRadar, hdata]
  rw [hfr]
  refine ⟨rfl, rfl, rfl, ?_⟩
  intro i hi habs
  simp only [RADAR_ORDER, List.map_cons, List.map_nil]
  interval_cases i
  · rw [radar_find_none raw items "Intensité" hsub (by simpa using habs)]; rfl
  · rw [radar_find_none raw items "Vitesse" hsub (by simpa using habs)]; rfl
  · rw [radar_find_none raw items "Force" hsub (by simpa using habs)]; rfl
  · rw [radar_find_none raw items "Endurance" hsub (by simpa using habs)]; rfl
  · rw [radar_find_none raw items "Énergie" hsub (by simpa using habs)]; rfl
  · rw [radar_find_none raw items "Cardio" hsub (by simpa using habs)]; rfl

/-- Concrete single-category performance input used by the C5 witness. -/
def radarWitnessInput : PerformanceTransformer.RadarInput :=
  { kind := none
    data := some [{ value := some 80, kind := some 1, kindName := some "cardio" }] }

open PerformanceTransformer in
/-- Witness for C5: a one-entry (cardio only) input still yields six
slots in radar order, and the absent Intensité slot carries value 0. -/
theorem formatForRadar_fixed_six_slots_witness :
    (formatForRadar (some radarWitnessInput)).length = 6 ∧
    (formatForRadar (some radarWitnessInput)).map RadarEntry.subject =
      ["Intensité", "Vitesse", "Force", "Endurance", "Énergie", "Cardio"] ∧
    ((formatForRadar (some radarWitnessInput)).getD 0 dummyRadarEntry).value = some 0 := by
  have h := formatForRadar_fixed_six_slots radarWitnessInput
    [{ value := some 80, kind := some 1, kindName := some "cardio" }] rfl
    (by intro d hd; simp at hd; subst hd; exact ⟨"cardio", rfl, by decide⟩)
  exact ⟨h.1, h.2.1, h.2.2.2 0 (by decide) (by decide)⟩

open DataNormalizer in
/-- Claim C8: for every endpoint string and non-null payload,
`normalizeByEndpoint` selects the normalizer by substring match in the
fixed priority order performance, average-sessions, activity, then the
`/user/{id}` profile-path pattern, and passes the payload through
unchanged for an endpoint matching none of these — exactly the spec's
dispatch function. -/
theorem normalizeByEndpoint_matches_spec_dispatch (endpoint : String) (raw : RawData) :
    normalizeByEndpoint endpoint (some raw) =
      applyKindNormalizer (specResourceKind endpoint) (some raw) := by
  by_cases he : endpoint = ""
  · subst he
    have h1 : jsIncludes "" "/performance" = false := by decide
    have h2 : jsIncludes "" "/average-sessions" = false := by decide
    have h3 : jsIncludes "" "/activity" = false := by decide
    have h4 : matchesUserIdPath "" = false := by decide
    simp [normalizeByEndpoint, specResourceKind, applyKindNormalizer, h1, h2, h3, h4]
  · cases h1 : jsIncludes endpoint "/performance" <;>
      cases h2 : jsIncludes endpoint "/average-sessions" <;>
        cases h3 : jsIncludes endpoint "/activity" <;>
          cases h4 : matchesUserIdPath endpoint <;>
            simp [normalizeByEndpoint, specResourceKind, applyKindNormalizer, he, h1, h2, h3, h4]

open DataNormalizer DataService in
/-- Dispatch check backing `inheritedCallOutcome`: no inherited
`Object.prototype` member name matches any dispatch pattern, so a value
leaking from the prototype chain passes through `normalizeByEndpoint`
on its identity branch. -/
theorem objectProtoNames_no_dispatch :
    ∀ name ∈ objectProtoNames, specResourceKind name = .unknown := by
  decide

open DataService in
/-- Lookup helper for C9: an endpoint outside the eight own keys has no
entry in the mock table. -/
theorem mockDataMap_lookup_eq_none (endpoint : String)
    (hmem : endpoint ∉ ["/user/18", "/user/18/activity", "/user/18/average-sessions",
      "/user/18/performance", "/user/12", "/user/12/activity",
      "/user/12/average-sessions", "/user/12/performance"]) :
    List.lookup endpoint mockDataMap = none := by
  simp only [List.mem_cons, List.not_mem_nil, or_false, not_or] at hmem
  obtain ⟨h1, h2, h3, h4, h5, h6, h7, h8⟩ := hmem
  have e1 : (endpoint == "/user/18") = false := beq_eq_false_iff_ne.mpr h1
  have e2 : (endpoint == "/user/18/activity") = false := beq_eq_false_iff_ne.mpr h2
  have e3 : (endpoint == "/user/18/average-sessions") = false := beq_eq_false_iff_ne.mpr h3
  have e4 : (endpoint == "/user/18/performance") = false := beq_eq_false_iff_ne.mpr h4
  have e5 : (endpoint == "/user/12") = false := beq_eq_false_iff_ne.mpr h5
  have e6 : (endpoint == "/user/12/activity") = false := beq_eq_false_iff_ne.mpr h6
  have e7 : (endpoint == "/user/12/average-sessions") = false := beq_eq_false_iff_ne.mpr h7
  have e8 : (endpoint == "/user/12/performance") = false := beq_eq_false_iff_ne.mpr h8
  simp [mockDataMap, List.lookup, e1, e2, e3, e4, e5, e6, e7, e8]

open DataService in
/-- Claim C9 as stated is false: the endpoint "toString" has no entry in
the mock table, yet the property read hits the inherited
`Object.prototype.toString`, the `!mockFunction` guard passes, and
`_getMockData` returns the string "[object Undefined]" instead of
failing with the not-found error. -/
theorem getMockData_proto_member_cex :
    "toString" ∉ ["/user/18", "/user/18/activity", "/user/18/average-sessions",
      "/user/18/performance", "/user/12", "/user/12/activity",
      "/user/12/average-sessions", "/user/12/performance"] ∧
    getMockData "toString" = .leak (.str "[object Undefined]") ∧
    getMockData "toString" ≠
      .error ("Données mockées non trouvées pour: " ++ "toString") := by
  decide

open DataNormalizer DataService in
/-- Claim C9 (amended): in mock mode, every endpoint that is neither an
own key of the mock table nor the name of an inherited
`Object.prototype` member fails with the not-found error; for every
endpoint outside the table — inherited member names included — no
entry's data is ever substituted (the result is never a normalized
payload); and every endpoint in the table returns that entry's data
normalized for that endpoint. -/
theorem getMockData_exact_lookup_no_fallback :
    (∀ endpoint : String,
      endpoint ∉ ["/user/18", "/user/18/activity", "/user/18/average-sessions",
        "/user/18/performance", "/user/12", "/user/12/activity",
        "/user/12/average-sessions", "/user/12/performance"] →
      endpoint ∉ objectProtoNames →
      getMockData endpoint = .error ("Données mockées non trouvées pour: " ++ endpoint)) ∧
    (∀ endpoint : String,
      endpoint ∉ ["/user/18", "/user/18/activity", "/user/18/average-sessions",
        "/user/18/performance", "/user/12", "/user/12/activity",
        "/user/12/average-sessions", "/user/12/performance"] →
      ∀ result : Normalized, getMockData endpoint ≠ .ok result) ∧
    getMockData "/user/18" = .ok (.user (normalizeUser (some mockUserDataUser18))) ∧
    getMockData "/user/18/activity" =
      .ok (.activity (normalizeActivity (some mockActivityDataUser18))) ∧
    getMockData "/user/18/average-sessions" =
      .ok (.sessions (normalizeSessions (some mockSessionsDataUser18))) ∧
    getMockData "/user/18/performance" =
      .ok (.perf (normalizePerformance (some mockPerformanceDataUser18))) ∧
    getMockData "/user/12" = .ok (.user (normalizeUser (some mockUserData))) ∧
    getMockData "/user/12/activity" =
      .ok (.activity (normalizeActivity (some mockActivityData))) ∧
    getMockData "/user/12/average-sessions" =
      .ok (.sessions (normalizeSessions (some mockSessionsData))) ∧
    getMockData "/user/12/performance" =
      .ok (.perf (normalizePerformance (some mockPerformanceData))) := by
  refine ⟨?_, ?_, rfl, rfl, rfl, rfl, rfl, rfl, rfl, rfl⟩
  · intro endpoint hmem hproto
    simp only [getMockData, mockDataMap_lookup_eq_none endpoint hmem]
    rw [if_neg hproto]
  · intro endpoint hmem result
    simp only [getMockData, mockDataMap_lookup_eq_none endpoint hmem]
    by_cases hp : endpoint ∈ objectProtoNames
    · rw [if_pos hp]
      unfold inheritedCallOutcome
      split_ifs <;> simp
    · rw [if_neg hp]
      simp

open DataService in
/-- Witness for C9: the endpoint `/user/99` (neither a table key nor an
inherited member name) fails with the not-found error, and the inherited
name `toString` never yields a normalized payload. -/
theorem getMockData_exact_lookup_no_fallback_witness :
    getMockData "/user/99" =
      .error ("Données mockées non trouvées pour: " ++ "/user/99") ∧
    getMockData "toString" ≠ .ok (.raw none) :=
  ⟨getMockData_exact_lookup_no_fallback.1 "/user/99" (by decide) (by decide),
    getMockData_exact_lookup_no_fallback.2.1 "toString" (by decide) (.raw none)⟩

end SportSee
